import Mathlib

/-!
# CycloneCrypto X.509 certificate decoder and verifier — a verification development

This file embeds the X.509 parsing and validation layer of CycloneCrypto
(`src/x509.h`, version 1.7.8).  The header provides the data contracts
(`X509CertificateInfo`, `X509Extensions`, `X509BasicContraints`, the key-usage
and version enumerations, the `X509_MAX_SUBJECT_ALT_NAMES` bound) and the
prototypes of the parsing / validation functions; the function bodies are not
part of the sources, so their behaviour is modelled from the accompanying
specification (the DER/TLV reader of spec §4.1, the primitive decoders of
§4.2, the structure parser of §4.3, the extension dispatcher of §4.6 and the
validator of §4.7).  Byte streams are `List Nat` (one entry per octet);
borrowed slices of the input buffer are represented by the byte lists they
denote, together with the explicit length fields the C structs carry.
-/

set_option maxHeartbeats 1000000
set_option maxRecDepth 8000

namespace X509

/-- Error kinds, following the error taxonomy of the specification (§7). -/
inductive XError where
  | truncatedInput
  | unexpectedTag
  | invalidLength
  | trailingData
  | invalidVersion
  | nonMinimalInteger
  | badBooleanEncoding
  | badBitStringPadding
  | unsupportedStringEncoding
  | unsupportedTimeFormat
  | unknownCriticalExtension
  | duplicateExtension
  | tooManySubjectAltNames
  | unsupportedAlgorithm
  | algorithmMismatch
  | issuerMismatch
  | issuerNotCA
  | issuerCannotSign
  | certExpired
  | certNotYetValid
  | badSignature
deriving DecidableEq, Repr

/-- An ASN.1 tag: class (0 = universal, 1 = application, 2 = context,
3 = private), the constructed bit, and the tag number. -/
structure Asn1Tag where
  cls : Nat
  constructed : Bool
  number : Nat
deriving DecidableEq, Repr

def sequenceTag : Asn1Tag := ⟨0, true, 16⟩
def integerTag : Asn1Tag := ⟨0, false, 2⟩
def booleanTag : Asn1Tag := ⟨0, false, 1⟩
def bitStringTag : Asn1Tag := ⟨0, false, 3⟩
def octetStringTag : Asn1Tag := ⟨0, false, 4⟩
def oidTag : Asn1Tag := ⟨0, false, 6⟩
def utcTimeTag : Asn1Tag := ⟨0, false, 23⟩
def genTimeTag : Asn1Tag := ⟨0, false, 24⟩
/-- Tag of the `[0] EXPLICIT` version wrapper (byte 0xA0). -/
def ctx0Tag : Asn1Tag := ⟨2, true, 0⟩
/-- Tag of the `[3] EXPLICIT` extensions wrapper (byte 0xA3). -/
def ctx3Tag : Asn1Tag := ⟨2, true, 3⟩

/-- Modelled from the spec: base-128 continuation bytes of a high-tag-number
form (§4.1; the TLV reader's body is not under `src/`).  Returns the decoded
number and the count of bytes consumed.  A leading continuation byte 0x80
(leading zero bits) is rejected. -/
def readBase128Aux (acc : Nat) : List Nat → Except XError (Nat × Nat)
  | [] => .error .truncatedInput
  | b :: r =>
    if b < 128 then .ok (acc * 128 + b, 1)
    else
      match readBase128Aux (acc * 128 + (b - 128)) r with
      | .ok (v, k) => .ok (v, k + 1)
      | .error e => .error e

/-- Modelled from the spec: decode one tag octet (plus high-tag-number
continuation, §4.1).  Returns the tag and the number of bytes consumed.
High-tag-number form where the short form would suffice, and continuation
starting with 0x80, are rejected (DER minimality, §4.1). -/
def readTagNum : List Nat → Except XError (Asn1Tag × Nat)
  | [] => .error .truncatedInput
  | b :: r =>
    if b % 32 < 31 then
      .ok (⟨b / 64, b / 32 % 2 = 1, b % 32⟩, 1)
    else
      match r with
      | [] => .error .truncatedInput
      | b1 :: _ =>
        if b1 = 128 then .error .invalidLength
        else
          match readBase128Aux 0 r with
          | .error e => .error e
          | .ok (num, k) =>
            if num < 31 then .error .invalidLength
            else .ok (⟨b / 64, b / 32 % 2 = 1, num⟩, 1 + k)

/-- Modelled from the spec: decode a DER length (§4.1; definite form only,
minimal encoding required).  0x80 (indefinite) and 0xFF (reserved) are
rejected; a long form that fits in fewer bytes is rejected.  Returns the
length value and the number of bytes consumed. -/
def readLen : List Nat → Except XError (Nat × Nat)
  | [] => .error .truncatedInput
  | b :: r =>
    if b < 128 then .ok (b, 1)
    else if b = 128 then .error .invalidLength
    else if b = 255 then .error .invalidLength
    else
      let k := b - 128
      if r.length < k then .error .truncatedInput
      else
        let bytes := r.take k
        if bytes.headI = 0 then .error .invalidLength
        else
          let v := bytes.foldl (fun a x => a * 256 + x) 0
          if k = 1 ∧ v < 128 then .error .invalidLength
          else .ok (v, 1 + k)

/-- Modelled from the spec: the TLV reader (§4.1; its body is not under
`src/`).  Reads one DER header from the head of `s` and returns
`(tag, headerLen, contentLen)`; fails with `truncatedInput` when fewer than
`headerLen + contentLen` bytes remain. -/
def readTLV (s : List Nat) : Except XError (Asn1Tag × Nat × Nat) :=
  match readTagNum s with
  | .error e => .error e
  | .ok (t, n1) =>
    match readLen (s.drop n1) with
    | .error e => .error e
    | .ok (l, n2) =>
      if n1 + n2 + l ≤ s.length then .ok (t, n1 + n2, l)
      else .error .truncatedInput

/-- Calendar date and time, the collaborator type of `date_time.h` reduced to
the fields the specification uses (build from (Y, M, D, h, m, s), §6). -/
structure DateTime where
  year : Nat := 0
  month : Nat := 0
  day : Nat := 0
  hours : Nat := 0
  minutes : Nat := 0
  seconds : Nat := 0
deriving DecidableEq, Repr

/-- Strict lexicographic order on date-times (used by the validity check). -/
def dateTimeLt (a b : DateTime) : Bool :=
  if a.year ≠ b.year then decide (a.year < b.year)
  else if a.month ≠ b.month then decide (a.month < b.month)
  else if a.day ≠ b.day then decide (a.day < b.day)
  else if a.hours ≠ b.hours then decide (a.hours < b.hours)
  else if a.minutes ≠ b.minutes then decide (a.minutes < b.minutes)
  else decide (a.seconds < b.seconds)

def isDigit (b : Nat) : Bool := 48 ≤ b && b ≤ 57

def digitsOk (l : List Nat) : Bool := l.all isDigit

/-- Decimal value of two ASCII digits. -/
def dec2 (a b : Nat) : Nat := (a - 48) * 10 + (b - 48)

/-- Decimal value of four ASCII digits. -/
def dec4 (a b c d : Nat) : Nat := dec2 a b * 100 + dec2 c d

/-- Modelled from the spec: the UTCTime century rule — a two-digit year below
50 means 20YY, otherwise 19YY (§4.2). -/
def utcYear (yy : Nat) : Nat := if yy < 50 then 2000 + yy else 1900 + yy

/-- Modelled from the spec: decode the content octets of a UTCTime
(`YYMMDDHHMMSSZ`, 13 octets) when `isUtc` is true, else of a GeneralizedTime
(`YYYYMMDDHHMMSSZ`, 15 octets) (§4.2).  Only the `Z` suffix is accepted; any
other timezone suffix, fractional seconds, or a shorter or longer form is
`unsupportedTimeFormat`. -/
def timeFromContent (isUtc : Bool) (c : List Nat) : Except XError DateTime :=
  if isUtc then
    if c.length = 13 ∧ digitsOk (c.take 12) = true ∧ c.getD 12 0 = 90 then
      .ok { year := utcYear (dec2 (c.getD 0 0) (c.getD 1 0)),
            month := dec2 (c.getD 2 0) (c.getD 3 0),
            day := dec2 (c.getD 4 0) (c.getD 5 0),
            hours := dec2 (c.getD 6 0) (c.getD 7 0),
            minutes := dec2 (c.getD 8 0) (c.getD 9 0),
            seconds := dec2 (c.getD 10 0) (c.getD 11 0) }
    else .error .unsupportedTimeFormat
  else
    if c.length = 15 ∧ digitsOk (c.take 14) = true ∧ c.getD 14 0 = 90 then
      .ok { year := dec4 (c.getD 0 0) (c.getD 1 0) (c.getD 2 0) (c.getD 3 0),
            month := dec2 (c.getD 4 0) (c.getD 5 0),
            day := dec2 (c.getD 6 0) (c.getD 7 0),
            hours := dec2 (c.getD 8 0) (c.getD 9 0),
            minutes := dec2 (c.getD 10 0) (c.getD 11 0),
            seconds := dec2 (c.getD 12 0) (c.getD 13 0) }
    else .error .unsupportedTimeFormat

/-- Modelled from the spec: `x509ParseTime` (prototype at src/x509.h:378; the
body is not under `src/`).  Reads one Time TLV — UTCTime or GeneralizedTime —
and returns the decoded instant together with the total length consumed. -/
def x509ParseTime (s : List Nat) : Except XError (DateTime × Nat) :=
  match readTLV s with
  | .error e => .error e
  | .ok (t, h, l) =>
    if t = utcTimeTag then
      match timeFromContent true ((s.drop h).take l) with
      | .ok d => .ok (d, h + l)
      | .error e => .error e
    else if t = genTimeTag then
      match timeFromContent false ((s.drop h).take l) with
      | .ok d => .ok (d, h + l)
      | .error e => .error e
    else .error .unsupportedTimeFormat

/-- Modelled from the spec: the minimality test on INTEGER content octets —
a leading 0x00 followed by a byte with the high bit clear, or a leading 0xFF
followed by a byte with the high bit set, is a non-minimal two's-complement
encoding (§4.2).  Empty content is not a valid INTEGER. -/
def intMinimalOk : List Nat → Bool
  | [] => false
  | [_] => true
  | b0 :: b1 :: _ =>
    if b0 = 0 ∧ b1 < 128 then false
    else if b0 = 255 ∧ 128 ≤ b1 then false
    else true

/-- Modelled from the spec: `x509ParseInt` (prototype at src/x509.h:438; the
body is not under `src/`).  Decodes the content octets of an INTEGER into a
machine word (`uint_t`, accumulated base 256 modulo 2^32), rejecting
non-minimal encodings (§4.2). -/
def x509ParseInt (c : List Nat) : Except XError Nat :=
  if c = [] then .error .invalidLength
  else if intMinimalOk c then
    .ok (c.foldl (fun a b => (a * 256 + b) % 4294967296) 0)
  else .error .nonMinimalInteger

/-! ## Data model (from `src/x509.h`)

The structures below mirror the C structs field for field.  Borrowed
`pointer + length` pairs become a byte list plus the explicit length field;
the parser establishes `len = list.length`.  Defaults mirror the zeroed
output structure the C parser starts from. -/

/-- Issuer or subject name, from `X509Name` (src/x509.h:116).  The recognized
RDN attribute slices (commonName, surname, …) all point inside `rawData`
(spec §4.4) and are not needed by the properties below; only the raw DER
slice of the whole Name, kept for byte-exact issuer/subject comparison, is
modelled. -/
structure X509Name where
  rawData : List Nat := []
  rawDataLen : Nat := 0
deriving DecidableEq, Repr

/-- From `X509Validity` (src/x509.h:157). -/
structure X509Validity where
  notBefore : DateTime := {}
  notAfter : DateTime := {}
deriving DecidableEq, Repr

/-- From `X509RsaPublicKey` (src/x509.h:168). -/
structure X509RsaPublicKey where
  n : List Nat := []
  nLen : Nat := 0
  e : List Nat := []
  eLen : Nat := 0
deriving DecidableEq, Repr

/-- From `X509DsaParameters` (src/x509.h:181). -/
structure X509DsaParameters where
  p : List Nat := []
  pLen : Nat := 0
  q : List Nat := []
  qLen : Nat := 0
  g : List Nat := []
  gLen : Nat := 0
deriving DecidableEq, Repr

/-- From `X509DsaPublicKey` (src/x509.h:196). -/
structure X509DsaPublicKey where
  y : List Nat := []
  yLen : Nat := 0
deriving DecidableEq, Repr

/-- From `X509EcParameters` (src/x509.h:207). -/
structure X509EcParameters where
  namedCurve : List Nat := []
  namedCurveLen : Nat := 0
deriving DecidableEq, Repr

/-- From `X509EcPublicKey` (src/x509.h:218). -/
structure X509EcPublicKey where
  q : List Nat := []
  qLen : Nat := 0
deriving DecidableEq, Repr

/-- From `X509SubjectPublicKeyInfo` (src/x509.h:229), with RSA, DSA and EC
support all enabled. -/
structure X509SubjectPublicKeyInfo where
  oid : List Nat := []
  oidLen : Nat := 0
  rsaPublicKey : X509RsaPublicKey := {}
  dsaParams : X509DsaParameters := {}
  dsaPublicKey : X509DsaPublicKey := {}
  ecParams : X509EcParameters := {}
  ecPublicKey : X509EcPublicKey := {}
deriving DecidableEq, Repr

/-- From `X509BasicContraints` (src/x509.h:251) — the struct carries exactly
the decoded `ca` flag and path-length constraint, and no flag recording
whether the basicConstraints extension was present at all. -/
structure X509BasicContraints where
  ca : Bool := false
  pathLenConstraint : Nat := 0
deriving DecidableEq, Repr

/-- From `X509GeneralNameType` (src/x509.h:86). -/
inductive X509GeneralNameType where
  | otherName
  | rfc822
  | dns
  | x400Address
  | directory
  | ediParty
  | uri
  | ipAddress
  | registeredId
deriving DecidableEq, Repr

/-- GeneralName type for a context tag number 0–8 (src/x509.h:86 assigns the
enumerators those values). -/
def generalNameTypeOfNat : Nat → X509GeneralNameType
  | 0 => .otherName
  | 1 => .rfc822
  | 2 => .dns
  | 3 => .x400Address
  | 4 => .directory
  | 5 => .ediParty
  | 6 => .uri
  | 7 => .ipAddress
  | _ => .registeredId

/-- From `X509GeneralName` (src/x509.h:262). -/
structure X509GeneralName where
  type : X509GeneralNameType := .otherName
  value : List Nat := []
  length : Nat := 0
deriving DecidableEq, Repr

/-- Maximum number of subject alternative names: the default value of the
compile-time parameter `X509_MAX_SUBJECT_ALT_NAMES` (src/x509.h:40). -/
def X509_MAX_SUBJECT_ALT_NAMES : Nat := 4

/-- From `X509SubjectAltName` (src/x509.h:274): a count plus fixed storage of
`X509_MAX_SUBJECT_ALT_NAMES` entries, modelled as a list the parser keeps no
longer than that bound. -/
structure X509SubjectAltName where
  numGeneralNames : Nat := 0
  generalNames : List X509GeneralName := []
deriving DecidableEq, Repr

/-- From `X509Extensions` (src/x509.h:285).  Note the field list: there is
storage for basicConstraints, the keyUsage bitmap, the subjectAltName list,
the subject and authority key identifiers and the Netscape cert-type bitmap —
and no field for extended-key-usage information. -/
structure X509Extensions where
  basicConstraints : X509BasicContraints := {}
  keyUsage : Nat := 0
  subjectAltName : X509SubjectAltName := {}
  subjectKeyId : List Nat := []
  subjectKeyIdLen : Nat := 0
  authorityKeyId : List Nat := []
  authorityKeyIdLen : Nat := 0
  nsCertType : Nat := 0
deriving DecidableEq, Repr

/-- From `X509CertificateInfo` (src/x509.h:302). -/
structure X509CertificateInfo where
  tbsCertificate : List Nat := []
  tbsCertificateLen : Nat := 0
  version : Nat := 0
  serialNumber : List Nat := []
  serialNumberLen : Nat := 0
  issuer : X509Name := {}
  validity : X509Validity := {}
  subject : X509Name := {}
  subjectPublicKeyInfo : X509SubjectPublicKeyInfo := {}
  extensions : X509Extensions := {}
  signatureAlgo : List Nat := []
  signatureAlgoLen : Nat := 0
  signatureValue : List Nat := []
  signatureValueLen : Nat := 0
deriving DecidableEq, Repr

/-- `X509_KEY_USAGE_KEY_CERT_SIGN` (src/x509.h:75). -/
def X509_KEY_USAGE_KEY_CERT_SIGN : Nat := 32

/-! ## Known object identifiers

The extension OID byte values correspond to the `extern const` declarations
at src/x509.h:338–354 (arcs listed in spec §6). -/

def X509_SUBJECT_KEY_ID_OID : List Nat := [85, 29, 14]
def X509_KEY_USAGE_OID : List Nat := [85, 29, 15]
def X509_SUBJECT_ALT_NAME_OID : List Nat := [85, 29, 17]
def X509_BASIC_CONSTRAINTS_OID : List Nat := [85, 29, 19]
def X509_AUTHORITY_KEY_ID_OID : List Nat := [85, 29, 35]
def X509_EXTENDED_KEY_USAGE_OID : List Nat := [85, 29, 37]
def X509_NS_CERT_TYPE_OID : List Nat := [96, 134, 72, 1, 134, 248, 66, 1, 1]

/-- Modelled from the spec: rsaEncryption 1.2.840.113549.1.1.1 (§4.5; the
OID tables live in `crypto.c`, not under `src/`). -/
def RSA_ENCRYPTION_OID : List Nat := [42, 134, 72, 134, 247, 13, 1, 1, 1]
/-- Modelled from the spec: dsa 1.2.840.10040.4.1 (§4.5). -/
def DSA_OID : List Nat := [42, 134, 72, 206, 56, 4, 1]
/-- Modelled from the spec: ecPublicKey 1.2.840.10045.2.1 (§4.5). -/
def EC_PUBLIC_KEY_OID : List Nat := [42, 134, 72, 206, 61, 2, 1]

/-- Modelled from the spec: signature-algorithm OIDs the validator resolves
to a hash and signature family (§4.7 step 4): md5/sha1/sha256/sha384/sha512
with RSA, dsa-with-sha1, ecdsa with sha1/sha256/sha384/sha512. -/
def knownSignatureAlgoOids : List (List Nat) :=
  [[42, 134, 72, 134, 247, 13, 1, 1, 4],
   [42, 134, 72, 134, 247, 13, 1, 1, 5],
   [42, 134, 72, 134, 247, 13, 1, 1, 11],
   [42, 134, 72, 134, 247, 13, 1, 1, 12],
   [42, 134, 72, 134, 247, 13, 1, 1, 13],
   [42, 134, 72, 206, 56, 4, 3],
   [42, 134, 72, 206, 61, 4, 1],
   [42, 134, 72, 206, 61, 4, 3, 2],
   [42, 134, 72, 206, 61, 4, 3, 3],
   [42, 134, 72, 206, 61, 4, 3, 4]]

/-! ## Bit strings -/

/-- Reverse the eight bits of one octet: ASN.1 named bit `j` (most
significant first on the wire) becomes bit `j` of the machine bitmap, so the
bitmap values agree with the `X509KeyUsage` enumeration (src/x509.h:68). -/
def reverseBits8 (b : Nat) : Nat :=
  (List.range 8).foldl (fun acc j => acc + b / 2 ^ (7 - j) % 2 * 2 ^ j) 0

/-- Clear the `unused` trailing (least significant) bits of the last octet
(spec §4.2: unused bits must be masked). -/
def maskLast (unused : Nat) : List Nat → List Nat
  | [] => []
  | [b] => [b - b % 2 ^ unused]
  | b :: r => b :: maskLast unused r

/-- Machine bitmap of a named-bit list: octet `k` contributes its reversed
bits shifted by `8 k`. -/
def bitmapOf : List Nat → Nat
  | [] => 0
  | b :: r => reverseBits8 b + 256 * bitmapOf r

/-- Modelled from the spec: decode BIT STRING content octets into a named-bit
bitmap — first octet counts unused trailing bits in [0,7], which are masked
(§4.2). -/
def x509DecodeBitString (c : List Nat) : Except XError Nat :=
  match c with
  | [] => .error .invalidLength
  | u :: rest =>
    if u ≤ 7 then .ok (bitmapOf (maskLast u rest))
    else .error .badBitStringPadding

/-! ## Extension decoders

All modelled from the spec (§4.6); the bodies of `x509ParseExtensions` and
the per-extension decoders declared at src/x509.h:408–430 are not under
`src/`.  Each decoder receives the extension's OCTET STRING value and the
extensions view under construction. -/

/-- Modelled from the spec: an optional BOOLEAN with DEFAULT FALSE — decode
0x00 as false and 0xFF as true, reject other content (§4.2); when the next
TLV is not a BOOLEAN, yield the default and consume nothing. -/
def parseOptionalBoolean (s : List Nat) : Except XError (Bool × Nat) :=
  match readTLV s with
  | .error _ => .ok (false, 0)
  | .ok (t, h, l) =>
    if t = booleanTag then
      match (s.drop h).take l with
      | [0] => .ok (false, h + l)
      | [255] => .ok (true, h + l)
      | _ => .error .badBooleanEncoding
    else .ok (false, 0)

/-- Modelled from the spec: `x509ParseBasicConstraints` (src/x509.h:411) —
`SEQUENCE { ca BOOLEAN DEFAULT FALSE, pathLenConstraint INTEGER OPTIONAL }`
(§4.6). -/
def x509ParseBasicConstraints (v : List Nat) (ext : X509Extensions) :
    Except XError X509Extensions :=
  match readTLV v with
  | .error e => .error e
  | .ok (t, h, l) =>
    if t = sequenceTag ∧ h + l = v.length then
      let c := (v.drop h).take l
      match parseOptionalBoolean c with
      | .error e => .error e
      | .ok (ca, n1) =>
        let c1 := c.drop n1
        if c1 = [] then
          .ok { ext with basicConstraints := { ca := ca, pathLenConstraint := 0 } }
        else
          match readTLV c1 with
          | .error e => .error e
          | .ok (t2, h2, l2) =>
            if t2 = integerTag ∧ h2 + l2 = c1.length then
              match x509ParseInt ((c1.drop h2).take l2) with
              | .error e => .error e
              | .ok pl =>
                .ok { ext with basicConstraints := { ca := ca, pathLenConstraint := pl } }
            else .error .unexpectedTag
    else .error .unexpectedTag

/-- Modelled from the spec: `x509ParseKeyUsage` (src/x509.h:414) — a BIT
STRING decoded into the 9-bit bitmap of `X509KeyUsage` values (§4.6). -/
def x509ParseKeyUsage (v : List Nat) (ext : X509Extensions) :
    Except XError X509Extensions :=
  match readTLV v with
  | .error e => .error e
  | .ok (t, h, l) =>
    if t = bitStringTag ∧ h + l = v.length then
      match x509DecodeBitString ((v.drop h).take l) with
      | .error e => .error e
      | .ok bm => .ok { ext with keyUsage := bm }
    else .error .unexpectedTag

/-- Modelled from the spec: `x509ParseExtendedKeyUsage` (src/x509.h:417).
The extension value must be a SEQUENCE (of key-purpose OIDs, §4.6), but the
`X509Extensions` struct of src/x509.h:285 has no field in which to record
extended-key-usage information, so a well-formed extension is accepted and
the view is returned unchanged. -/
def x509ParseExtendedKeyUsage (v : List Nat) (ext : X509Extensions) :
    Except XError X509Extensions :=
  match readTLV v with
  | .error e => .error e
  | .ok (t, h, l) =>
    if t = sequenceTag ∧ h + l = v.length then .ok ext
    else .error .unexpectedTag

/-- Modelled from the spec: the loop over the `SEQUENCE OF GeneralName`
content of a subjectAltName extension (§4.6).  Each GeneralName is a
context-tagged TLV with tag number 0–8; once the fixed storage of
`X509_MAX_SUBJECT_ALT_NAMES` entries is full, a further entry is
`tooManySubjectAltNames` (§5: excess is an error, never dropped silently).
`fuel` bounds the recursion; callers pass at least the byte count. -/
def sanLoop : Nat → List Nat → List X509GeneralName →
    Except XError (List X509GeneralName)
  | _, [], acc => .ok acc
  | 0, _ :: _, _ => .error .truncatedInput
  | fuel + 1, s, acc =>
    match readTLV s with
    | .error e => .error e
    | .ok (t, h, l) =>
      if acc.length ≥ X509_MAX_SUBJECT_ALT_NAMES then .error .tooManySubjectAltNames
      else if t.cls = 2 ∧ t.number ≤ 8 then
        sanLoop fuel (s.drop (h + l))
          (acc ++ [{ type := generalNameTypeOfNat t.number,
                     value := (s.drop h).take l, length := l }])
      else .error .unexpectedTag

/-- Number of well-formed GeneralName TLVs (context class, tag number 0–8)
that tile a byte list; `none` when the list is not such a tiling.  This is
the specification-side counter the subjectAltName bound is stated with. -/
def countGeneralNames : Nat → List Nat → Option Nat
  | _, [] => some 0
  | 0, _ :: _ => none
  | fuel + 1, s =>
    match readTLV s with
    | .error _ => none
    | .ok (t, h, l) =>
      if t.cls = 2 ∧ t.number ≤ 8 then
        match countGeneralNames fuel (s.drop (h + l)) with
        | some k => some (k + 1)
        | none => none
      else none

/-- Modelled from the spec: `x509ParseSubjectAltName` (src/x509.h:420) —
`SEQUENCE OF GeneralName`, at most `X509_MAX_SUBJECT_ALT_NAMES` entries
(§4.6). -/
def x509ParseSubjectAltName (v : List Nat) (ext : X509Extensions) :
    Except XError X509Extensions :=
  match readTLV v with
  | .error e => .error e
  | .ok (t, h, l) =>
    if t = sequenceTag ∧ h + l = v.length then
      let c := (v.drop h).take l
      match sanLoop c.length c [] with
      | .error e => .error e
      | .ok names =>
        .ok { ext with subjectAltName := { numGeneralNames := names.length,
                                           generalNames := names } }
    else .error .unexpectedTag

/-- Modelled from the spec: `x509ParseSubjectKeyId` (src/x509.h:423) — an
OCTET STRING recorded as a borrowed slice (§4.6). -/
def x509ParseSubjectKeyId (v : List Nat) (ext : X509Extensions) :
    Except XError X509Extensions :=
  match readTLV v with
  | .error e => .error e
  | .ok (t, h, l) =>
    if t = octetStringTag ∧ h + l = v.length then
      .ok { ext with subjectKeyId := (v.drop h).take l, subjectKeyIdLen := l }
    else .error .unexpectedTag

/-- Modelled from the spec: `x509ParseAuthorityKeyId` (src/x509.h:426) — a
SEQUENCE whose `[0] keyIdentifier` component, when it leads the sequence, is
recorded (§4.6). -/
def x509ParseAuthorityKeyId (v : List Nat) (ext : X509Extensions) :
    Except XError X509Extensions :=
  match readTLV v with
  | .error e => .error e
  | .ok (t, h, l) =>
    if t = sequenceTag ∧ h + l = v.length then
      let c := (v.drop h).take l
      match readTLV c with
      | .error _ => .ok ext
      | .ok (t2, h2, l2) =>
        if t2.cls = 2 ∧ t2.number = 0 then
          .ok { ext with authorityKeyId := (c.drop h2).take l2,
                         authorityKeyIdLen := l2 }
        else .ok ext
    else .error .unexpectedTag

/-- Modelled from the spec: `x509ParseNsCertType` (src/x509.h:429) — a BIT
STRING decoded into the 8-bit Netscape cert-type bitmap (§4.6), stored in a
`uint8_t`. -/
def x509ParseNsCertType (v : List Nat) (ext : X509Extensions) :
    Except XError X509Extensions :=
  match readTLV v with
  | .error e => .error e
  | .ok (t, h, l) =>
    if t = bitStringTag ∧ h + l = v.length then
      match x509DecodeBitString ((v.drop h).take l) with
      | .error e => .error e
      | .ok bm => .ok { ext with nsCertType := bm % 256 }
    else .error .unexpectedTag

/-- The extension OIDs the dispatcher recognizes (spec §4.6, table). -/
def knownExtensionOids : List (List Nat) :=
  [X509_BASIC_CONSTRAINTS_OID, X509_KEY_USAGE_OID, X509_EXTENDED_KEY_USAGE_OID,
   X509_SUBJECT_ALT_NAME_OID, X509_SUBJECT_KEY_ID_OID, X509_AUTHORITY_KEY_ID_OID,
   X509_NS_CERT_TYPE_OID]

/-- Modelled from the spec: the extension dispatcher for one decoded
Extension (§4.6) — known OIDs go to their decoder; an unknown OID is ignored
when non-critical and is `unknownCriticalExtension` when critical. -/
def processExtension (oid : List Nat) (critical : Bool) (v : List Nat)
    (ext : X509Extensions) : Except XError X509Extensions :=
  if oid = X509_BASIC_CONSTRAINTS_OID then x509ParseBasicConstraints v ext
  else if oid = X509_KEY_USAGE_OID then x509ParseKeyUsage v ext
  else if oid = X509_EXTENDED_KEY_USAGE_OID then x509ParseExtendedKeyUsage v ext
  else if oid = X509_SUBJECT_ALT_NAME_OID then x509ParseSubjectAltName v ext
  else if oid = X509_SUBJECT_KEY_ID_OID then x509ParseSubjectKeyId v ext
  else if oid = X509_AUTHORITY_KEY_ID_OID then x509ParseAuthorityKeyId v ext
  else if oid = X509_NS_CERT_TYPE_OID then x509ParseNsCertType v ext
  else if critical then .error .unknownCriticalExtension
  else .ok ext

/-- Modelled from the spec: the loop over
`Extension ::= SEQUENCE { OID, critical BOOLEAN DEFAULT FALSE, OCTET STRING }`
entries (§4.6).  A repeated OID is `duplicateExtension`.  `fuel` bounds the
recursion; callers pass at least the byte count. -/
def extLoop : Nat → List Nat → List (List Nat) → X509Extensions →
    Except XError X509Extensions
  | _, [], _, ext => .ok ext
  | 0, _ :: _, _, _ => .error .truncatedInput
  | fuel + 1, s, seen, ext =>
    match readTLV s with
    | .error e => .error e
    | .ok (t, h, l) =>
      if t = sequenceTag then
        let c := (s.drop h).take l
        match readTLV c with
        | .error e => .error e
        | .ok (tOid, ho, lo) =>
          if tOid = oidTag then
            let oid := (c.drop ho).take lo
            let c1 := c.drop (ho + lo)
            match parseOptionalBoolean c1 with
            | .error e => .error e
            | .ok (critical, n) =>
              let c2 := c1.drop n
              match readTLV c2 with
              | .error e => .error e
              | .ok (tv, hv, lv) =>
                if tv = octetStringTag ∧ hv + lv = c2.length then
                  if oid ∈ seen then .error .duplicateExtension
                  else
                    match processExtension oid critical ((c2.drop hv).take lv) ext with
                    | .error e => .error e
                    | .ok ext' => extLoop fuel (s.drop (h + l)) (oid :: seen) ext'
                else .error .unexpectedTag
          else .error .unexpectedTag
      else .error .unexpectedTag

/-- Modelled from the spec: `x509ParseExtensions` (src/x509.h:408) — the
optional `[3] EXPLICIT SEQUENCE OF Extension` field, valid only for v3
certificates (§4.3 item 10).  When the leading TLV is not the `[3]` wrapper
the field is absent: nothing is consumed and the view keeps its defaults. -/
def x509ParseExtensions (s : List Nat) (version : Nat) :
    Except XError (X509Extensions × Nat) :=
  match readTLV s with
  | .error _ => .ok ({}, 0)
  | .ok (t, h, l) =>
    if t = ctx3Tag then
      if version < 2 then .error .invalidVersion
      else
        let c := (s.drop h).take l
        match readTLV c with
        | .error e => .error e
        | .ok (t2, h2, l2) =>
          if t2 = sequenceTag ∧ h2 + l2 = c.length then
            let c2 := (c.drop h2).take l2
            match extLoop c2.length c2 [] {} with
            | .error e => .error e
            | .ok ext => .ok (ext, h + l)
          else .error .unexpectedTag
    else .ok ({}, 0)

/-! ## Structure parser

All modelled from the spec (§4.3); the bodies of the functions declared at
src/x509.h:357–436 are not under `src/`.  Each parser takes the byte slice at
its field's position and returns the decoded value together with the number
of bytes consumed. -/

/-- Modelled from the spec: `x509ParseVersion` (src/x509.h:363) — the
optional `[0] EXPLICIT INTEGER` version; absent means v1 (0); a decoded value
other than 0, 1, 2 is `invalidVersion` (§4.3 item 1). -/
def x509ParseVersion (s : List Nat) : Except XError (Nat × Nat) :=
  match readTLV s with
  | .error _ => .ok (0, 0)
  | .ok (t, h, l) =>
    if t = ctx0Tag then
      let c := (s.drop h).take l
      match readTLV c with
      | .error e => .error e
      | .ok (t2, h2, l2) =>
        if t2 = integerTag ∧ h2 + l2 = c.length then
          match x509ParseInt ((c.drop h2).take l2) with
          | .error e => .error e
          | .ok v => if v ≤ 2 then .ok (v, h + l) else .error .invalidVersion
        else .error .unexpectedTag
    else .ok (0, 0)

/-- Modelled from the spec: `x509ParseSerialNumber` (src/x509.h:366) — an
INTEGER preserved as its raw content octets, wire encoding (leading sign
byte) retained, minimality enforced (§4.3 item 2, §4.2). -/
def x509ParseSerialNumber (s : List Nat) : Except XError (List Nat × Nat) :=
  match readTLV s with
  | .error e => .error e
  | .ok (t, h, l) =>
    if t = integerTag then
      let c := (s.drop h).take l
      if intMinimalOk c then .ok (c, h + l)
      else .error .nonMinimalInteger
    else .error .unexpectedTag

/-- Modelled from the spec: an AlgorithmIdentifier —
`SEQUENCE { OID, parameters tolerated }`; the algorithm OID content is
returned, trailing parameters are skipped (§4.3 items 3 and spec §4.5). -/
def parseAlgorithmIdentifier (s : List Nat) : Except XError (List Nat × Nat) :=
  match readTLV s with
  | .error e => .error e
  | .ok (t, h, l) =>
    if t = sequenceTag then
      let c := (s.drop h).take l
      match readTLV c with
      | .error e => .error e
      | .ok (t2, h2, l2) =>
        if t2 = oidTag then .ok ((c.drop h2).take l2, h + l)
        else .error .unexpectedTag
    else .error .unexpectedTag

/-- Modelled from the spec: `x509ParseSignature` (src/x509.h:369) — the inner
AlgorithmIdentifier of the tbsCertificate; the view has no field for it, so
it is validated and skipped (§4.3 item 3). -/
def x509ParseSignature (s : List Nat) : Except XError Nat :=
  match parseAlgorithmIdentifier s with
  | .error e => .error e
  | .ok (_, n) => .ok n

/-- Modelled from the spec: `x509ParseName` (src/x509.h:372) — a Name is a
SEQUENCE (RDNSequence) whose raw DER, header included, is retained as
`rawData` for byte-exact issuer/subject comparison (§4.4).  The recognized
attribute slices point inside `rawData` and are not modelled. -/
def x509ParseName (s : List Nat) : Except XError (X509Name × Nat) :=
  match readTLV s with
  | .error e => .error e
  | .ok (t, h, l) =>
    if t = sequenceTag then
      .ok ({ rawData := s.take (h + l), rawDataLen := h + l }, h + l)
    else .error .unexpectedTag

/-- Modelled from the spec: `x509ParseValidity` (src/x509.h:375) — a SEQUENCE
of two Time values (§4.3 item 5). -/
def x509ParseValidity (s : List Nat) : Except XError (X509Validity × Nat) :=
  match readTLV s with
  | .error e => .error e
  | .ok (t, h, l) =>
    if t = sequenceTag then
      let c := (s.drop h).take l
      match x509ParseTime c with
      | .error e => .error e
      | .ok (nb, n1) =>
        match x509ParseTime (c.drop n1) with
        | .error e => .error e
        | .ok (na, n2) =>
          if n1 + n2 = c.length then .ok ({ notBefore := nb, notAfter := na }, h + l)
          else .error .trailingData
    else .error .unexpectedTag

/-- Modelled from the spec: `x509ParseRsaPublicKey` (src/x509.h:387) — the
SPKI BIT STRING content is a SEQUENCE of two INTEGERs `n` and `e`, preserved
as raw minimally-encoded byte slices (§4.5). -/
def x509ParseRsaPublicKey (s : List Nat) : Except XError X509RsaPublicKey :=
  match readTLV s with
  | .error e => .error e
  | .ok (t, h, l) =>
    if t = sequenceTag ∧ h + l = s.length then
      let c := (s.drop h).take l
      match x509ParseSerialNumber c with
      | .error e => .error e
      | .ok (n, k1) =>
        match x509ParseSerialNumber (c.drop k1) with
        | .error e => .error e
        | .ok (e, k2) =>
          if k1 + k2 = c.length then
            .ok { n := n, nLen := n.length, e := e, eLen := e.length }
          else .error .trailingData
    else .error .unexpectedTag

/-- Modelled from the spec: `x509ParseDsaParameters` (src/x509.h:390) — the
algorithm parameters are a SEQUENCE of three INTEGERs `p`, `q`, `g` (§4.5). -/
def x509ParseDsaParameters (s : List Nat) : Except XError X509DsaParameters :=
  match readTLV s with
  | .error e => .error e
  | .ok (t, h, l) =>
    if t = sequenceTag ∧ h + l = s.length then
      let c := (s.drop h).take l
      match x509ParseSerialNumber c with
      | .error e => .error e
      | .ok (p, k1) =>
        match x509ParseSerialNumber (c.drop k1) with
        | .error e => .error e
        | .ok (q, k2) =>
          match x509ParseSerialNumber ((c.drop k1).drop k2) with
          | .error e => .error e
          | .ok (g, k3) =>
            if k1 + k2 + k3 = c.length then
              .ok { p := p, pLen := p.length, q := q, qLen := q.length,
                    g := g, gLen := g.length }
            else .error .trailingData
    else .error .unexpectedTag

/-- Modelled from the spec: `x509ParseDsaPublicKey` (src/x509.h:393) — the
SPKI BIT STRING content is a single INTEGER `y` (§4.5). -/
def x509ParseDsaPublicKey (s : List Nat) : Except XError X509DsaPublicKey :=
  match x509ParseSerialNumber s with
  | .error e => .error e
  | .ok (y, k) =>
    if k = s.length then .ok { y := y, yLen := y.length }
    else .error .trailingData

/-- Modelled from the spec: `x509ParseEcParameters` (src/x509.h:396) — the
algorithm parameters are a named-curve OID, kept as a borrowed slice (§4.5). -/
def x509ParseEcParameters (s : List Nat) : Except XError X509EcParameters :=
  match readTLV s with
  | .error e => .error e
  | .ok (t, h, l) =>
    if t = oidTag ∧ h + l = s.length then
      .ok { namedCurve := (s.drop h).take l, namedCurveLen := l }
    else .error .unexpectedTag

/-- Modelled from the spec: `x509ParseEcPublicKey` (src/x509.h:399) — the
SPKI BIT STRING content is the EC point as raw bytes, first octet 0x04, 0x02
or 0x03 (§4.5). -/
def x509ParseEcPublicKey (s : List Nat) : Except XError X509EcPublicKey :=
  match s with
  | [] => .error .invalidLength
  | b :: _ =>
    if b = 4 ∨ b = 2 ∨ b = 3 then .ok { q := s, qLen := s.length }
    else .error .unexpectedTag

/-- Modelled from the spec: `x509ParseSubjectPublicKeyInfo` (src/x509.h:381)
— `SEQUENCE { AlgorithmIdentifier, BIT STRING }`, dispatching on the
algorithm OID to the RSA, DSA or EC key decoder; an unknown OID is
`unsupportedAlgorithm` (§4.5). -/
def x509ParseSubjectPublicKeyInfo (s : List Nat) :
    Except XError (X509SubjectPublicKeyInfo × Nat) :=
  match readTLV s with
  | .error e => .error e
  | .ok (t, h, l) =>
    if t = sequenceTag then
      let c := (s.drop h).take l
      match readTLV c with
      | .error e => .error e
      | .ok (ta, ha, la) =>
        if ta = sequenceTag then
          let algo := c.take (ha + la)
          match parseAlgorithmIdentifier algo with
          | .error e => .error e
          | .ok (oid, _) =>
            let c1 := c.drop (ha + la)
            match readTLV c1 with
            | .error e => .error e
            | .ok (tb, hb, lb) =>
              if tb = bitStringTag ∧ hb + lb = c1.length then
                match (c1.drop hb).take lb with
                | [] => .error .invalidLength
                | u :: key =>
                  if u = 0 then
                    let base : X509SubjectPublicKeyInfo :=
                      { oid := oid, oidLen := oid.length }
                    if oid = RSA_ENCRYPTION_OID then
                      match x509ParseRsaPublicKey key with
                      | .error e => .error e
                      | .ok k => .ok ({ base with rsaPublicKey := k }, h + l)
                    else if oid = DSA_OID then
                      let params := (algo.drop (2 + oid.length + 2)).take
                        (algo.length - (2 + oid.length + 2))
                      match x509ParseDsaParameters params with
                      | .error e => .error e
                      | .ok dp =>
                        match x509ParseDsaPublicKey key with
                        | .error e => .error e
                        | .ok k => .ok ({ base with dsaParams := dp, dsaPublicKey := k }, h + l)
                    else if oid = EC_PUBLIC_KEY_OID then
                      let params := (algo.drop (2 + oid.length + 2)).take
                        (algo.length - (2 + oid.length + 2))
                      match x509ParseEcParameters params with
                      | .error e => .error e
                      | .ok ep =>
                        match x509ParseEcPublicKey key with
                        | .error e => .error e
                        | .ok k => .ok ({ base with ecParams := ep, ecPublicKey := k }, h + l)
                    else .error .unsupportedAlgorithm
                  else .error .badBitStringPadding
              else .error .unexpectedTag
        else .error .unexpectedTag
    else .error .unexpectedTag

/-- Modelled from the spec: `x509ParseIssuerUniqueId` (src/x509.h:402) — the
optional `[1] IMPLICIT BIT STRING`, accepted and skipped, valid only for
v2/v3 (§4.3 item 8). -/
def x509ParseIssuerUniqueId (s : List Nat) (version : Nat) :
    Except XError Nat :=
  match readTLV s with
  | .error _ => .ok 0
  | .ok (t, h, l) =>
    if t.cls = 2 ∧ t.number = 1 then
      if 1 ≤ version then .ok (h + l) else .error .invalidVersion
    else .ok 0

/-- Modelled from the spec: `x509ParseSubjectUniqueId` (src/x509.h:405) — the
optional `[2] IMPLICIT BIT STRING`, accepted and skipped, valid only for
v2/v3 (§4.3 item 9). -/
def x509ParseSubjectUniqueId (s : List Nat) (version : Nat) :
    Except XError Nat :=
  match readTLV s with
  | .error _ => .ok 0
  | .ok (t, h, l) =>
    if t.cls = 2 ∧ t.number = 2 then
      if 1 ≤ version then .ok (h + l) else .error .invalidVersion
    else .ok 0

/-- Modelled from the spec: `x509ParseTbsCertificate` (src/x509.h:360) — the
tbsCertificate SEQUENCE.  The raw bytes of the whole TLV, tag and length
header included, are recorded as the signed region `tbsCertificate`
(§4.3, §9 signed-region capture); the fields inside are parsed in order and
trailing bytes are `trailingData`. -/
def x509ParseTbsCertificate (s : List Nat) :
    Except XError (X509CertificateInfo × Nat) := do
  let (t, h, l) ← readTLV s
  if t = sequenceTag then
    let c := (s.drop h).take l
    let (version, n1) ← x509ParseVersion c
    let c1 := c.drop n1
    let (serial, n2) ← x509ParseSerialNumber c1
    let c2 := c1.drop n2
    let n3 ← x509ParseSignature c2
    let c3 := c2.drop n3
    let (issuer, n4) ← x509ParseName c3
    let c4 := c3.drop n4
    let (validity, n5) ← x509ParseValidity c4
    let c5 := c4.drop n5
    let (subject, n6) ← x509ParseName c5
    let c6 := c5.drop n6
    let (spki, n7) ← x509ParseSubjectPublicKeyInfo c6
    let c7 := c6.drop n7
    let n8 ← x509ParseIssuerUniqueId c7 version
    let c8 := c7.drop n8
    let n9 ← x509ParseSubjectUniqueId c8 version
    let c9 := c8.drop n9
    let (exts, n10) ← x509ParseExtensions c9 version
    if c9.drop n10 = [] then
      return ({ tbsCertificate := s.take (h + l), tbsCertificateLen := h + l,
                version := version,
                serialNumber := serial, serialNumberLen := serial.length,
                issuer := issuer, validity := validity, subject := subject,
                subjectPublicKeyInfo := spki, extensions := exts }, h + l)
    else throw .trailingData
  else throw .unexpectedTag

/-- Modelled from the spec: `x509ParseSignatureAlgo` (src/x509.h:432) — the
outer signatureAlgorithm AlgorithmIdentifier; its OID content is recorded
(§4.3). -/
def x509ParseSignatureAlgo (s : List Nat) : Except XError (List Nat × Nat) :=
  parseAlgorithmIdentifier s

/-- Modelled from the spec: `x509ParseSignatureValue` (src/x509.h:435) — the
signatureValue BIT STRING; the signature bytes after the unused-bits octet
are recorded (§4.3). -/
def x509ParseSignatureValue (s : List Nat) : Except XError (List Nat × Nat) :=
  match readTLV s with
  | .error e => .error e
  | .ok (t, h, l) =>
    if t = bitStringTag then
      match (s.drop h).take l with
      | [] => .error .invalidLength
      | u :: sig => if u ≤ 7 then .ok (sig, h + l) else .error .badBitStringPadding
    else .error .unexpectedTag

/-- Modelled from the spec: `x509ParseCertificate` (src/x509.h:357) — the
outer `SEQUENCE { tbsCertificate, signatureAlgorithm, signatureValue }`
(§4.3); trailing bytes after the three fields are `trailingData`. -/
def x509ParseCertificate (b : List Nat) : Except XError X509CertificateInfo := do
  let (t, h, l) ← readTLV b
  if t = sequenceTag then
    let s := (b.drop h).take l
    let (cert, n1) ← x509ParseTbsCertificate s
    let s1 := s.drop n1
    let (algoOid, n2) ← x509ParseSignatureAlgo s1
    let s2 := s1.drop n2
    let (sigVal, n3) ← x509ParseSignatureValue s2
    if s2.drop n3 = [] then
      return { cert with signatureAlgo := algoOid, signatureAlgoLen := algoOid.length,
                         signatureValue := sigVal, signatureValueLen := sigVal.length }
    else throw .trailingData
  else throw .unexpectedTag

/-! ## Validator -/

/-- Modelled from the spec: `x509ValidateCertificate` (src/x509.h:446), the
validator of §4.7.  Steps: (1) byte-for-byte comparison of the child's
issuer Name slice against the issuer's subject Name slice — any difference in
length or content is `issuerMismatch`; (2) for a v3 issuer view (extension
data exists only for v3, §4.3 item 10, and the view records extension
presence only through its decoded values) the basicConstraints `ca` flag must
be set — else `issuerNotCA` — and a recorded keyUsage bitmap must contain
`keyCertSign` — else `issuerCannotSign`; (3) the validation instant must lie
in the validity window; (4) the signature algorithm OID must be a known
family; (5)–(6) hashing and the signature check are external collaborators
(§6), abstracted by the `sigOk` verdict parameter, as is the wall clock by
`now` (the C function reads the clock and calls the crypto primitives
directly). -/
def x509ValidateCertificate (cert issuer : X509CertificateInfo)
    (now : DateTime) (sigOk : Bool) : Except XError Unit :=
  if cert.issuer.rawDataLen = issuer.subject.rawDataLen ∧
      cert.issuer.rawData = issuer.subject.rawData then
    if 2 ≤ issuer.version ∧ issuer.extensions.basicConstraints.ca = false then
      .error .issuerNotCA
    else if 2 ≤ issuer.version ∧ issuer.extensions.keyUsage ≠ 0 ∧
        issuer.extensions.keyUsage / X509_KEY_USAGE_KEY_CERT_SIGN % 2 = 0 then
      .error .issuerCannotSign
    else if dateTimeLt now cert.validity.notBefore then
      .error .certNotYetValid
    else if dateTimeLt cert.validity.notAfter now then
      .error .certExpired
    else if cert.signatureAlgo ∈ knownSignatureAlgoOids then
      if sigOk then .ok () else .error .badSignature
    else .error .unsupportedAlgorithm
  else .error .issuerMismatch

/-! ## DER construction helpers and concrete certificates

`mkTLV` builds the DER TLV for a single-byte tag and a content list; the
demonstration certificates below exercise the parser on concrete byte
streams. -/

/-- Minimal DER length encoding for `n < 65536`. -/
def encodeLen (n : Nat) : List Nat :=
  if n < 128 then [n]
  else if n < 256 then [129, n]
  else [130, n / 256, n % 256]

/-- DER TLV with a single-byte tag. -/
def mkTLV (t : Nat) (c : List Nat) : List Nat := t :: encodeLen c.length ++ c

/-- Value of an `Except`, with a fallback for the error case. -/
def exceptGetD (x : Except XError α) (d : α) : α :=
  match x with
  | .ok a => a
  | .error _ => d

def oidSha1Rsa : List Nat := [42, 134, 72, 134, 247, 13, 1, 1, 5]

/-- AlgorithmIdentifier for sha1WithRSAEncryption with NULL parameters. -/
def algoIdSha1Rsa : List Nat := mkTLV 48 (mkTLV 6 oidSha1Rsa ++ mkTLV 5 [])

/-- An empty RDNSequence (a DER-valid empty Name). -/
def emptyNameDer : List Nat := mkTLV 48 []

/-- Validity 2023-01-01 .. 2024-01-01, both UTCTime. -/
def validityDer : List Nat :=
  mkTLV 48 (mkTLV 23 [50, 51, 48, 49, 48, 49, 48, 48, 48, 48, 48, 48, 90] ++
            mkTLV 23 [50, 52, 48, 49, 48, 49, 48, 48, 48, 48, 48, 48, 90])

/-- A tiny RSA SubjectPublicKeyInfo (n = 0x00B7 with sign byte, e = 3). -/
def spkiDer : List Nat :=
  mkTLV 48 (mkTLV 48 (mkTLV 6 RSA_ENCRYPTION_OID ++ mkTLV 5 []) ++
            mkTLV 3 (0 :: mkTLV 48 (mkTLV 2 [0, 183] ++ mkTLV 2 [3])))

/-- tbsCertificate content shared by the demonstration certificates:
serial 1, inner sha1WithRSA signature, empty issuer and subject Names, the
2023 validity window and the tiny RSA key. -/
def tbsCore : List Nat :=
  mkTLV 2 [1] ++ algoIdSha1Rsa ++ emptyNameDer ++ validityDer ++
    emptyNameDer ++ spkiDer

/-- A complete certificate from a tbsCertificate TLV: outer SEQUENCE with the
sha1WithRSA signatureAlgorithm and a two-byte BIT STRING signature. -/
def certOfTbs (tbs : List Nat) : List Nat :=
  mkTLV 48 (tbs ++ algoIdSha1Rsa ++ mkTLV 3 [0, 17, 34])

/-- A minimal v1 certificate (no version field, no extensions). -/
def certV1 : List Nat := certOfTbs (mkTLV 48 tbsCore)

/-- The `[0] EXPLICIT INTEGER 2` version field of a v3 certificate. -/
def versionV3Der : List Nat := mkTLV 160 (mkTLV 2 [2])

/-- A v3 certificate with the given list of already-encoded extensions. -/
def certV3WithExts (exts : List Nat) : List Nat :=
  certOfTbs (mkTLV 48 (versionV3Der ++ tbsCore ++ mkTLV 163 (mkTLV 48 exts)))

/-- A basicConstraints extension `SEQUENCE {}`: critical flag absent, `ca`
absent (DEFAULT FALSE), no pathLenConstraint. -/
def extBasicConstraintsDefault : List Nat :=
  mkTLV 48 (mkTLV 6 X509_BASIC_CONSTRAINTS_OID ++ mkTLV 4 (mkTLV 48 []))

/-- An extendedKeyUsage extension carrying the single key purpose
id-kp-serverAuth (1.3.6.1.5.5.7.3.1). -/
def extEkuServerAuth : List Nat :=
  mkTLV 48 (mkTLV 6 X509_EXTENDED_KEY_USAGE_OID ++
            mkTLV 4 (mkTLV 48 (mkTLV 6 [43, 6, 1, 5, 5, 7, 3, 1])))

/-- The same extendedKeyUsage extension with id-kp-clientAuth
(1.3.6.1.5.5.7.3.2) instead. -/
def extEkuClientAuth : List Nat :=
  mkTLV 48 (mkTLV 6 X509_EXTENDED_KEY_USAGE_OID ++
            mkTLV 4 (mkTLV 48 (mkTLV 6 [43, 6, 1, 5, 5, 7, 3, 2])))

/-- A v3 certificate with an empty Extensions SEQUENCE — basicConstraints
omitted. -/
def certV3NoBC : List Nat := certV3WithExts []

/-- The same v3 certificate carrying basicConstraints with `ca` FALSE and no
pathLenConstraint. -/
def certV3WithBC : List Nat := certV3WithExts extBasicConstraintsDefault

/-- A v3 certificate whose extendedKeyUsage lists serverAuth. -/
def certV3EkuServer : List Nat := certV3WithExts extEkuServerAuth

/-- A v3 certificate whose extendedKeyUsage lists clientAuth. -/
def certV3EkuClient : List Nat := certV3WithExts extEkuClientAuth

/-- Five DNS general names `a.a` — one more than the storage bound. -/
def fiveDnsNames : List Nat :=
  mkTLV 130 [97, 46, 97] ++ mkTLV 130 [97, 46, 97] ++ mkTLV 130 [97, 46, 97] ++
    mkTLV 130 [97, 46, 97] ++ mkTLV 130 [97, 46, 97]

/-- A basicConstraints extension with `ca` TRUE (BOOLEAN 0xFF) and no
pathLenConstraint. -/
def extBasicConstraintsCaTrue : List Nat :=
  mkTLV 48 (mkTLV 6 X509_BASIC_CONSTRAINTS_OID ++ mkTLV 4 (mkTLV 48 (mkTLV 1 [255])))

/-- A keyUsage extension whose BIT STRING is empty — present, but every named
bit (keyCertSign included) clear: content octets `[0x00]`, zero unused bits
and no value octets, a valid DER BIT STRING. -/
def extKeyUsageZero : List Nat :=
  mkTLV 48 (mkTLV 6 X509_KEY_USAGE_OID ++ mkTLV 4 (mkTLV 3 [0]))

/-- A v3 CA certificate (basicConstraints ca TRUE) carrying a keyUsage
extension with the all-zero bitmap. -/
def certIssuerKuZero : List Nat :=
  certV3WithExts (extBasicConstraintsCaTrue ++ extKeyUsageZero)

/-! ## Helper lemmas -/

@[simp] theorem ok_bind (a : α) (f : α → Except XError β) :
    (Except.ok a >>= f) = f a := rfl

@[simp] theorem error_bind (e : XError) (f : α → Except XError β) :
    ((Except.error e : Except XError α) >>= f) = Except.error e := rfl

@[simp] theorem throw_eq (e : XError) :
    (throw e : Except XError α) = Except.error e := rfl

@[simp] theorem pure_eq (a : α) : (pure a : Except XError α) = Except.ok a := rfl

theorem readTagNum_pos (s : List Nat) (t : Asn1Tag) (n : Nat)
    (h : readTagNum s = .ok (t, n)) : 0 < n := by
  unfold readTagNum at h
  repeat' split at h
  all_goals first
  | (exact Except.noConfusion h)
  | (cases h; omega)

theorem readLen_pos (s : List Nat) (l n : Nat)
    (h : readLen s = .ok (l, n)) : 0 < n := by
  unfold readLen at h
  dsimp only at h
  repeat' split at h
  all_goals first
  | (exact Except.noConfusion h)
  | (cases h; omega)

/-- A successful TLV read stays inside the input and consumes a nonempty
header. -/
theorem readTLV_bounds (s : List Nat) (t : Asn1Tag) (h l : Nat)
    (hr : readTLV s = .ok (t, h, l)) : 0 < h ∧ h + l ≤ s.length := by
  unfold readTLV at hr
  split at hr
  · simp at hr
  · rename_i t1 n1 h1
    split at hr
    · simp at hr
    · rename_i l1 n2 h2
      split at hr
      · rename_i hle
        simp at hr
        obtain ⟨rfl, rfl, rfl⟩ := hr
        have := readTagNum_pos s t1 n1 h1
        omega
      · simp at hr

theorem readTLV_tagNum (s : List Nat) (t : Asn1Tag) (h l : Nat)
    (hr : readTLV s = .ok (t, h, l)) : ∃ n, readTagNum s = .ok (t, n) := by
  unfold readTLV at hr
  split at hr
  · exact Except.noConfusion hr
  · rename_i t1 n1 h1
    split at hr
    · exact Except.noConfusion hr
    · split at hr
      · cases hr; exact ⟨n1, h1⟩
      · exact Except.noConfusion hr

/-- Only the byte 0xA0 decodes to the `[0] EXPLICIT` constructed context
tag. -/
theorem readTagNum_not_ctx0 (b : Nat) (r : List Nat) (t : Asn1Tag) (n : Nat)
    (hb : b ≠ 160) (h : readTagNum (b :: r) = .ok (t, n)) : t ≠ ctx0Tag := by
  simp only [readTagNum] at h
  repeat' split at h
  all_goals first
  | exact Except.noConfusion h
  | (cases h; intro hc; rw [ctx0Tag] at hc;
     simp only [Asn1Tag.mk.injEq, decide_eq_true_eq] at hc; omega)

/-! ## Claim theorems -/

/-- **C2.** For every pair of parsed certificates C and I,
`x509ValidateCertificate(C, I)` compares `C.issuer.rawData` (`rawDataLen`
bytes) to `I.subject.rawData` byte-for-byte, and returns the IssuerMismatch
error whenever the two slices differ in length or in any byte. -/
theorem validate_issuer_mismatch (cert issuer : X509CertificateInfo)
    (now : DateTime) (sigOk : Bool)
    (hne : cert.issuer.rawDataLen ≠ issuer.subject.rawDataLen ∨
           cert.issuer.rawData ≠ issuer.subject.rawData) :
    x509ValidateCertificate cert issuer now sigOk = .error .issuerMismatch := by
  have hc : ¬(cert.issuer.rawDataLen = issuer.subject.rawDataLen ∧
      cert.issuer.rawData = issuer.subject.rawData) := by
    rcases hne with h | h <;> intro hcon
    · exact h hcon.1
    · exact h hcon.2
  simp [x509ValidateCertificate, hc]

/-- Witness for C2: a child whose issuer Name slice is empty against an
issuer whose subject Name slice is the two-byte empty RDNSequence. -/
theorem validate_issuer_mismatch_witness :
    (([] : List Nat) ≠ [48, 0]) ∧
    x509ValidateCertificate {} { subject := { rawData := [48, 0], rawDataLen := 2 } }
      {} true = .error .issuerMismatch :=
  ⟨by decide,
   validate_issuer_mismatch {} { subject := { rawData := [48, 0], rawDataLen := 2 } }
     {} true (Or.inr (by decide))⟩

/-- **C3.** For every certificate containing an extension whose OID is not in
the recognized table, parsing ignores the extension and succeeds when its
critical flag is FALSE, and fails with UnknownCriticalExtension when the flag
is TRUE.  (The absent-flag-defaults-to-FALSE half is the behaviour of
`parseOptionalBoolean`, which feeds the dispatcher `false` when the Extension
has no BOOLEAN component.) -/
theorem unknown_extension_dispatch (oid v : List Nat) (ext : X509Extensions)
    (hu : oid ∉ knownExtensionOids) :
    processExtension oid true v ext = .error .unknownCriticalExtension ∧
    processExtension oid false v ext = .ok ext := by
  simp only [knownExtensionOids, List.mem_cons, List.not_mem_nil, or_false,
    not_or] at hu
  obtain ⟨h1, h2, h3, h4, h5, h6, h7⟩ := hu
  constructor <;> simp [processExtension, h1, h2, h3, h4, h5, h6, h7]

/-- Witness for C3: the OID 1.2.3 is not in the recognized table; critical
makes it fail, non-critical leaves the view untouched. -/
theorem unknown_extension_dispatch_witness :
    ([42, 3] ∉ knownExtensionOids) ∧
    processExtension [42, 3] true [] {} = .error .unknownCriticalExtension ∧
    processExtension [42, 3] false [] {} = .ok {} :=
  ⟨by decide, (unknown_extension_dispatch [42, 3] [] {} (by decide)).1,
   (unknown_extension_dispatch [42, 3] [] {} (by decide)).2⟩

/-- **C5.** `x509ParseVersion` yields version 0 (v1) when the optional
`[0] EXPLICIT INTEGER` field is absent (the leading TLV, if any, has some
other tag), yields the decoded integer when it is 0, 1 or 2, and fails with
InvalidVersion for any other decoded value; a successfully parsed view never
carries a version above 2. -/
theorem version_parse_spec :
    (x509ParseVersion [] = .ok (0, 0)) ∧
    (∀ b rest, b ≠ 160 → x509ParseVersion (b :: rest) = .ok (0, 0)) ∧
    (∀ v rest, v < 256 → x509ParseVersion (160 :: 3 :: 2 :: 1 :: v :: rest) =
        if v ≤ 2 then .ok (v, 5) else .error .invalidVersion) ∧
    (∀ s v n, x509ParseVersion s = .ok (v, n) → v ≤ 2) := by
  refine ⟨rfl, ?_, ?_, ?_⟩
  · intro b rest hb
    unfold x509ParseVersion
    cases hr : readTLV (b :: rest) with
    | error e => rfl
    | ok x =>
      obtain ⟨t, h, l⟩ := x
      obtain ⟨n, hn⟩ := readTLV_tagNum _ _ _ _ hr
      have hnc := readTagNum_not_ctx0 b rest t n hb hn
      simp [hnc]
  · intro v rest hv
    have hmod : v % 4294967296 = v := Nat.mod_eq_of_lt (by omega)
    have h1 : readTLV (160 :: 3 :: 2 :: 1 :: v :: rest) = .ok (ctx0Tag, 2, 3) := by
      simp [readTLV, readTagNum, readLen, ctx0Tag]
    have h2 : readTLV [2, 1, v] = .ok (integerTag, 2, 1) := by
      simp [readTLV, readTagNum, readLen, integerTag]
    unfold x509ParseVersion
    rw [h1]
    simp [h2, x509ParseInt, intMinimalOk, hmod, List.take, List.drop]
  · intro s v n hp
    unfold x509ParseVersion at hp
    cases hr : readTLV s with
    | error e =>
      rw [hr] at hp
      dsimp only at hp
      cases hp
      omega
    | ok x =>
      obtain ⟨t, h, l⟩ := x
      rw [hr] at hp
      dsimp only at hp
      split at hp
      · cases hr2 : readTLV ((s.drop h).take l) with
        | error e =>
          rw [hr2] at hp
          dsimp only at hp
          exact Except.noConfusion hp
        | ok y =>
          obtain ⟨t2, h2, l2⟩ := y
          rw [hr2] at hp
          dsimp only at hp
          split at hp
          · cases hpi : x509ParseInt ((((s.drop h).take l).drop h2).take l2) with
            | error e =>
              rw [hpi] at hp
              dsimp only at hp
              exact Except.noConfusion hp
            | ok w =>
              rw [hpi] at hp
              dsimp only at hp
              split at hp
              · cases hp; omega
              · exact Except.noConfusion hp
          · exact Except.noConfusion hp
      · cases hp
        omega

/-- Witness for C5: an absent version field (a SEQUENCE tag instead), the
value 1, and the out-of-range value 7. -/
theorem version_parse_spec_witness :
    x509ParseVersion [48, 0] = .ok (0, 0) ∧
    x509ParseVersion [160, 3, 2, 1, 1] = .ok (1, 5) ∧
    x509ParseVersion [160, 3, 2, 1, 7] = .error .invalidVersion := by
  refine ⟨version_parse_spec.2.1 48 [0] (by decide), ?_, ?_⟩
  · have h := version_parse_spec.2.2.1 1 [] (by decide)
    simpa using h
  · have h := version_parse_spec.2.2.1 7 [] (by decide)
    simpa using h

/-- **C6 (counterexample).** The claim says extended-key-usage flags are
recorded on the parsed view; but two valid certificates that differ exactly
in the key purpose their extendedKeyUsage extension names (serverAuth versus
clientAuth) parse to equal decoded extensions views, so no EKU information is
observable on the parsed view. -/
theorem eku_counterexample :
    (x509ParseCertificate certV3EkuServer).isOk = true ∧
    (x509ParseCertificate certV3EkuClient).isOk = true ∧
    certV3EkuServer ≠ certV3EkuClient ∧
    (exceptGetD (x509ParseCertificate certV3EkuServer) {}).extensions =
      (exceptGetD (x509ParseCertificate certV3EkuClient) {}).extensions :=
  ⟨rfl, rfl, by decide, by decide⟩

/-- **C6 (amended).** `x509ParseExtendedKeyUsage` accepts a well-formed
extendedKeyUsage extension but records nothing: whenever it succeeds, the
extensions view is returned unchanged — `X509Extensions` (src/x509.h:285)
has no field for EKU flags. -/
theorem eku_parse_records_nothing (v : List Nat) (ext ext' : X509Extensions)
    (hp : x509ParseExtendedKeyUsage v ext = .ok ext') : ext' = ext := by
  unfold x509ParseExtendedKeyUsage at hp
  repeat' split at hp
  all_goals first
  | (exact Except.noConfusion hp)
  | (cases hp; rfl)

/-- Witness for C6 (amended): parsing a serverAuth extendedKeyUsage value
over a view with a marker keyUsage leaves the view as it was. -/
theorem eku_parse_records_nothing_witness :
    exceptGetD (x509ParseExtendedKeyUsage
        (mkTLV 48 (mkTLV 6 [43, 6, 1, 5, 5, 7, 3, 1])) { keyUsage := 7 }) {} =
      { keyUsage := 7 } :=
  eku_parse_records_nothing (mkTLV 48 (mkTLV 6 [43, 6, 1, 5, 5, 7, 3, 1]))
    { keyUsage := 7 }
    (exceptGetD (x509ParseExtendedKeyUsage
      (mkTLV 48 (mkTLV 6 [43, 6, 1, 5, 5, 7, 3, 1])) { keyUsage := 7 }) {})
    (by rfl)

/-- **C9.** For every INTEGER content-octet sequence of length at least 2,
the integer decoder rejects a leading 0x00 followed by a byte with the high
bit clear and a leading 0xFF followed by a byte with the high bit set, and
accepts every other sequence (as a minimal two's-complement encoding). -/
theorem int_minimal_encoding (b0 b1 : Nat) (rest : List Nat) :
    (b0 = 0 → b1 < 128 →
      x509ParseInt (b0 :: b1 :: rest) = .error .nonMinimalInteger) ∧
    (b0 = 255 → 128 ≤ b1 →
      x509ParseInt (b0 :: b1 :: rest) = .error .nonMinimalInteger) ∧
    (¬(b0 = 0 ∧ b1 < 128) → ¬(b0 = 255 ∧ 128 ≤ b1) →
      x509ParseInt (b0 :: b1 :: rest) =
        .ok ((b0 :: b1 :: rest).foldl (fun a b => (a * 256 + b) % 4294967296) 0)) := by
  refine ⟨?_, ?_, ?_⟩ <;> intro ha hb <;>
    simp [x509ParseInt, intMinimalOk, ha, hb]

/-- Witness for C9: `00 05` and `FF C8` are rejected as non-minimal, `01 02`
decodes to 258. -/
theorem int_minimal_encoding_witness :
    x509ParseInt [0, 5] = .error .nonMinimalInteger ∧
    x509ParseInt [255, 200] = .error .nonMinimalInteger ∧
    x509ParseInt [1, 2] = .ok 258 :=
  ⟨(int_minimal_encoding 0 5 []).1 rfl (by decide),
   (int_minimal_encoding 255 200 []).2.1 rfl (by decide),
   ((int_minimal_encoding 1 2 []).2.2 (by decide) (by decide)).trans (by rfl)⟩

/-- **C10.** The parsed view cannot record whether the basicConstraints
extension was present: `X509BasicContraints` holds only `{ca,
pathLenConstraint}`, so a valid certificate omitting basicConstraints and the
otherwise-identical one carrying it with `ca` FALSE and no pathLenConstraint
parse to views with equal `extensions.basicConstraints` fields. -/
theorem basicConstraints_presence_not_recorded :
    (x509ParseCertificate certV3NoBC).isOk = true ∧
    (x509ParseCertificate certV3WithBC).isOk = true ∧
    certV3NoBC ≠ certV3WithBC ∧
    (exceptGetD (x509ParseCertificate certV3NoBC) {}).extensions.basicConstraints =
      (exceptGetD (x509ParseCertificate certV3WithBC) {}).extensions.basicConstraints :=
  ⟨rfl, rfl, by decide, by decide⟩

/-- **C7 (counterexample).** The claim says validation returns
IssuerCannotSign whenever the issuer's keyUsage extension is present without
the keyCertSign bit set.  But a keyUsage extension present with an all-zero
bitmap (BIT STRING content `[0x00]`, valid DER — keyCertSign not set) parses
to `keyUsage = 0`, indistinguishable on the view from an absent extension
(the `uint16_t keyUsage` field of src/x509.h:288 carries no presence flag),
and validation of such a v3 CA issuer against a matching child returns
success, not IssuerCannotSign. -/
theorem validate_keyusage_zero_counterexample :
    (x509ParseCertificate certIssuerKuZero).isOk = true ∧
    (exceptGetD (x509ParseCertificate certIssuerKuZero) {}).version = 2 ∧
    (exceptGetD (x509ParseCertificate certIssuerKuZero)
      {}).extensions.basicConstraints.ca = true ∧
    (exceptGetD (x509ParseCertificate certIssuerKuZero) {}).extensions.keyUsage = 0 ∧
    x509ValidateCertificate (exceptGetD (x509ParseCertificate certV1) {})
        (exceptGetD (x509ParseCertificate certIssuerKuZero) {})
        { year := 2023, month := 6, day := 15 } true = .ok () :=
  ⟨rfl, rfl, rfl, rfl, rfl⟩

/-- **C7 (amended).** For every pair of parsed certificates with matching
issuer and subject Names, validation returns IssuerNotCA when the issuer view
carries basicConstraints with `ca` false, and IssuerCannotSign when it
carries a *nonzero* keyUsage bitmap without the keyCertSign bit.  Extension
data exists only in v3 certificates (§4.3 item 10) and the view records
extension presence only through its decoded values (see C10), so
"basicConstraints present with ca FALSE" appears on a view as
`version = v3 ∧ ca = false`, and a keyUsage extension is visible only when
its bitmap is nonzero — one whose bitmap is all-zero is indistinguishable
from an absent extension and is not flagged (see the counterexample
above). -/
theorem validate_issuer_ca_checks (cert issuer : X509CertificateInfo)
    (now : DateTime) (sigOk : Bool)
    (hlen : cert.issuer.rawDataLen = issuer.subject.rawDataLen)
    (hraw : cert.issuer.rawData = issuer.subject.rawData)
    (hv3 : 2 ≤ issuer.version) :
    (issuer.extensions.basicConstraints.ca = false →
      x509ValidateCertificate cert issuer now sigOk = .error .issuerNotCA) ∧
    (issuer.extensions.basicConstraints.ca = true →
     issuer.extensions.keyUsage ≠ 0 →
     issuer.extensions.keyUsage / X509_KEY_USAGE_KEY_CERT_SIGN % 2 = 0 →
      x509ValidateCertificate cert issuer now sigOk = .error .issuerCannotSign) := by
  constructor
  · intro hca
    simp [x509ValidateCertificate, hlen, hraw, hv3, hca]
  · intro hca hku hbit
    simp [x509ValidateCertificate, hlen, hraw, hv3, hca, hku, hbit]

/-- Witness for C7: a v3 issuer with default (ca = FALSE) basicConstraints,
and a v3 CA issuer whose keyUsage is digitalSignature only. -/
theorem validate_issuer_ca_checks_witness :
    x509ValidateCertificate {} { version := 2 } {} true = .error .issuerNotCA ∧
    x509ValidateCertificate {}
        { version := 2,
          extensions := { basicConstraints := { ca := true }, keyUsage := 1 } }
        {} true = .error .issuerCannotSign :=
  ⟨(validate_issuer_ca_checks {} { version := 2 } {} true rfl rfl
      (by decide)).1 rfl,
   (validate_issuer_ca_checks {}
      { version := 2,
        extensions := { basicConstraints := { ca := true }, keyUsage := 1 } }
      {} true rfl rfl (by decide)).2 rfl (by decide) (by decide)⟩

/-- A byte list containing the ASCII dot 0x2E cannot satisfy the Time layout
`n` digits followed by `Z`. -/
theorem timeContent_dot (n : Nat) (c : List Nat) (hm : 46 ∈ c) :
    ¬(c.length = n + 1 ∧ digitsOk (c.take n) = true ∧ c.getD n 0 = 90) := by
  rintro ⟨hl, hdig, hz⟩
  obtain ⟨i, hi, hgi⟩ := List.mem_iff_getElem.mp hm
  by_cases hin : i < n
  · have hmem : (46 : Nat) ∈ c.take n := by
      rw [List.mem_iff_getElem]
      refine ⟨i, ?_, ?_⟩
      · rw [List.length_take]
        omega
      · rw [List.getElem_take]
        exact hgi
    have hdd := List.all_eq_true.mp hdig 46 hmem
    simp [isDigit] at hdd
  · have hin' : i = n := by omega
    subst hin'
    rw [List.getD_eq_getElem c 0 (by omega)] at hz
    exact absurd (hgi.symm.trans hz) (by decide)

/-- Failure form of the UTCTime content decoder. -/
theorem timeFromContent_utc_neg (c : List Nat)
    (h : ¬(c.length = 13 ∧ digitsOk (c.take 12) = true ∧ c.getD 12 0 = 90)) :
    timeFromContent true c = .error .unsupportedTimeFormat := by
  unfold timeFromContent
  rw [if_pos rfl, if_neg h]

/-- Failure form of the GeneralizedTime content decoder. -/
theorem timeFromContent_gen_neg (c : List Nat)
    (h : ¬(c.length = 15 ∧ digitsOk (c.take 14) = true ∧ c.getD 14 0 = 90)) :
    timeFromContent false c = .error .unsupportedTimeFormat := by
  unfold timeFromContent
  rw [if_neg (by decide), if_neg h]

/-- **C8.** `x509ParseTime` accepts exactly the UTCTime content form
`YYMMDDHHMMSSZ` (with YY < 50 read as 20YY and YY ≥ 50 as 19YY) and the
GeneralizedTime content form `YYYYMMDDHHMMSSZ`; content of any other length,
any suffix other than `Z`, fractional seconds (an ASCII dot anywhere), and
any tag other than UTCTime/GeneralizedTime are errors. -/
theorem time_format_spec :
    (∀ y1 y2 m1 m2 d1 d2 h1 h2 mi1 mi2 s1 s2 : Nat,
      digitsOk [y1, y2, m1, m2, d1, d2, h1, h2, mi1, mi2, s1, s2] = true →
      timeFromContent true [y1, y2, m1, m2, d1, d2, h1, h2, mi1, mi2, s1, s2, 90] =
        .ok { year := utcYear (dec2 y1 y2), month := dec2 m1 m2, day := dec2 d1 d2,
              hours := dec2 h1 h2, minutes := dec2 mi1 mi2, seconds := dec2 s1 s2 }) ∧
    (∀ yy, utcYear yy = if yy < 50 then 2000 + yy else 1900 + yy) ∧
    (∀ y1 y2 y3 y4 m1 m2 d1 d2 h1 h2 mi1 mi2 s1 s2 : Nat,
      digitsOk [y1, y2, y3, y4, m1, m2, d1, d2, h1, h2, mi1, mi2, s1, s2] = true →
      timeFromContent false
          [y1, y2, y3, y4, m1, m2, d1, d2, h1, h2, mi1, mi2, s1, s2, 90] =
        .ok { year := dec4 y1 y2 y3 y4, month := dec2 m1 m2, day := dec2 d1 d2,
              hours := dec2 h1 h2, minutes := dec2 mi1 mi2, seconds := dec2 s1 s2 }) ∧
    (∀ c, c.length ≠ 13 → timeFromContent true c = .error .unsupportedTimeFormat) ∧
    (∀ c, c.length ≠ 15 → timeFromContent false c = .error .unsupportedTimeFormat) ∧
    (∀ c, c.getD 12 0 ≠ 90 → timeFromContent true c = .error .unsupportedTimeFormat) ∧
    (∀ c, c.getD 14 0 ≠ 90 → timeFromContent false c = .error .unsupportedTimeFormat) ∧
    (∀ b c, 46 ∈ c → timeFromContent b c = .error .unsupportedTimeFormat) ∧
    (∀ s t h l, readTLV s = .ok (t, h, l) → t ≠ utcTimeTag → t ≠ genTimeTag →
      x509ParseTime s = .error .unsupportedTimeFormat) := by
  refine ⟨?_, ?_, ?_, ?_, ?_, ?_, ?_, ?_, ?_⟩
  · intro y1 y2 m1 m2 d1 d2 h1 h2 mi1 mi2 s1 s2 hd
    simp [timeFromContent, List.take, List.getD, hd]
  · intro yy; rfl
  · intro y1 y2 y3 y4 m1 m2 d1 d2 h1 h2 mi1 mi2 s1 s2 hd
    simp [timeFromContent, List.take, List.getD, hd]
  · intro c hc
    exact timeFromContent_utc_neg c (by rintro ⟨h, -, -⟩; exact hc h)
  · intro c hc
    exact timeFromContent_gen_neg c (by rintro ⟨h, -, -⟩; exact hc h)
  · intro c hc
    exact timeFromContent_utc_neg c (by rintro ⟨-, -, h⟩; exact hc h)
  · intro c hc
    exact timeFromContent_gen_neg c (by rintro ⟨-, -, h⟩; exact hc h)
  · intro b c hm
    cases b
    · exact timeFromContent_gen_neg c (timeContent_dot 14 c hm)
    · exact timeFromContent_utc_neg c (timeContent_dot 12 c hm)
  · intro s t h l hr h1 h2
    unfold x509ParseTime
    rw [hr]
    simp [h1, h2]

/-- Witness for C8: the UTCTime `230101000000Z` decodes (with the century
rule) to 2023-01-01, the GeneralizedTime `20500101000000Z` to 2050-01-01,
the non-Z suffix `230101000000+` and a fractional-seconds form are rejected,
and an INTEGER TLV is not a Time. -/
theorem time_format_spec_witness :
    timeFromContent true [50, 51, 48, 49, 48, 49, 48, 48, 48, 48, 48, 48, 90] =
      .ok { year := 2023, month := 1, day := 1, hours := 0, minutes := 0, seconds := 0 } ∧
    timeFromContent false
        [50, 48, 53, 48, 48, 49, 48, 49, 48, 48, 48, 48, 48, 48, 90] =
      .ok { year := 2050, month := 1, day := 1, hours := 0, minutes := 0, seconds := 0 } ∧
    timeFromContent true [50, 51, 48, 49, 48, 49, 48, 48, 48, 48, 48, 48, 43] =
      .error .unsupportedTimeFormat ∧
    timeFromContent true [50, 51, 48, 49, 48, 49, 48, 48, 48, 48, 46, 53, 90] =
      .error .unsupportedTimeFormat ∧
    x509ParseTime [2, 1, 0] = .error .unsupportedTimeFormat := by
  refine ⟨?_, ?_, ?_, ?_, ?_⟩
  · have h := time_format_spec.1 50 51 48 49 48 49 48 48 48 48 48 48 (by decide)
    rw [h]; rfl
  · have h := time_format_spec.2.2.1 50 48 53 48 48 49 48 49 48 48 48 48 48 48
      (by decide)
    rw [h]; rfl
  · exact time_format_spec.2.2.2.2.2.1 _ (by decide)
  · exact time_format_spec.2.2.2.2.2.2.2.1 true _ (by decide)
  · exact time_format_spec.2.2.2.2.2.2.2.2 [2, 1, 0] integerTag 2 1 (by rfl)
      (by decide) (by decide)

/-- With adequate fuel, a tiling of more general names than fit in the
remaining storage drives `sanLoop` into the TooManySubjectAltNames error. -/
theorem sanLoop_over_cap (fuelC : Nat) : ∀ fuel s acc k,
    s.length ≤ fuel → countGeneralNames fuelC s = some k →
    acc.length ≤ X509_MAX_SUBJECT_ALT_NAMES →
    X509_MAX_SUBJECT_ALT_NAMES < acc.length + k →
    sanLoop fuel s (acc : List X509GeneralName) = .error .tooManySubjectAltNames := by
  induction fuelC with
  | zero =>
    intro fuel s acc k hf hc ha hover
    cases s with
    | nil => simp [countGeneralNames] at hc; omega
    | cons x xs => simp [countGeneralNames] at hc
  | succ fc ih =>
    intro fuel s acc k hf hc ha hover
    cases s with
    | nil => simp [countGeneralNames] at hc; omega
    | cons x xs =>
      simp only [countGeneralNames] at hc
      cases hr : readTLV (x :: xs) with
      | error e => rw [hr] at hc; exact Option.noConfusion hc
      | ok y =>
        obtain ⟨t, h, l⟩ := y
        rw [hr] at hc
        dsimp only at hc
        split at hc
        · rename_i hcond
          cases hc2 : countGeneralNames fc ((x :: xs).drop (h + l)) with
          | none => rw [hc2] at hc; exact Option.noConfusion hc
          | some k' =>
            rw [hc2] at hc
            cases hc
            cases fuel with
            | zero => simp at hf
            | succ f =>
              simp only [sanLoop]
              rw [hr]
              dsimp only
              by_cases hacc : acc.length ≥ X509_MAX_SUBJECT_ALT_NAMES
              · rw [if_pos hacc]
              · rw [if_neg hacc, if_pos hcond]
                have hb := readTLV_bounds _ _ _ _ hr
                refine ih f ((x :: xs).drop (h + l)) _ k' ?_ hc2 ?_ ?_
                · simp only [List.length_drop]
                  simp at hf ⊢
                  omega
                · simp only [List.length_append, List.length_cons,
                    List.length_nil]
                  omega
                · simp only [List.length_append, List.length_cons,
                    List.length_nil]
                  omega
        · exact Option.noConfusion hc

/-- `sanLoop` never returns more names than the fixed storage holds. -/
theorem sanLoop_le (fuel : Nat) : ∀ s acc names,
    sanLoop fuel s acc = .ok names →
    acc.length ≤ X509_MAX_SUBJECT_ALT_NAMES →
    names.length ≤ X509_MAX_SUBJECT_ALT_NAMES := by
  induction fuel with
  | zero =>
    intro s acc names hp ha
    cases s with
    | nil => cases hp; exact ha
    | cons x xs => exact Except.noConfusion hp
  | succ f ih =>
    intro s acc names hp ha
    cases s with
    | nil => cases hp; exact ha
    | cons x xs =>
      simp only [sanLoop] at hp
      cases hr : readTLV (x :: xs) with
      | error e => rw [hr] at hp; exact Except.noConfusion hp
      | ok y =>
        obtain ⟨t, h, l⟩ := y
        rw [hr] at hp
        dsimp only at hp
        split at hp
        · exact Except.noConfusion hp
        · split at hp
          · refine ih _ _ _ hp ?_
            rename_i hacc _
            simp only [List.length_append, List.length_cons, List.length_nil]
            omega
          · exact Except.noConfusion hp

/-- **C4.** The number of subjectAltName general names a parsed view can hold
is bounded by `X509_MAX_SUBJECT_ALT_NAMES`, whose default value is 4: a
subjectAltName whose SEQUENCE tiles into more than that many GeneralName
TLVs fails with TooManySubjectAltNames, and a successful parse never records
more than the bound. -/
theorem san_cap :
    X509_MAX_SUBJECT_ALT_NAMES = 4 ∧
    (∀ v ext h l k, readTLV v = .ok (sequenceTag, h, l) → h + l = v.length →
      countGeneralNames ((v.drop h).take l).length ((v.drop h).take l) = some k →
      X509_MAX_SUBJECT_ALT_NAMES < k →
      x509ParseSubjectAltName v ext = .error .tooManySubjectAltNames) ∧
    (∀ v ext ext', x509ParseSubjectAltName v ext = .ok ext' →
      ext'.subjectAltName.numGeneralNames ≤ X509_MAX_SUBJECT_ALT_NAMES) := by
  refine ⟨rfl, ?_, ?_⟩
  · intro v ext h l k hr hlen hc hk
    unfold x509ParseSubjectAltName
    rw [hr]
    dsimp only
    rw [if_pos ⟨rfl, hlen⟩]
    rw [sanLoop_over_cap ((v.drop h).take l).length ((v.drop h).take l).length
      ((v.drop h).take l) [] k (le_refl _) hc (by simp [X509_MAX_SUBJECT_ALT_NAMES])
      (by simpa using hk)]
  · intro v ext ext' hp
    unfold x509ParseSubjectAltName at hp
    cases hr : readTLV v with
    | error e => rw [hr] at hp; exact Except.noConfusion hp
    | ok y =>
      obtain ⟨t, h, l⟩ := y
      rw [hr] at hp
      dsimp only at hp
      split at hp
      · cases hs : sanLoop ((v.drop h).take l).length ((v.drop h).take l) [] with
        | error e => rw [hs] at hp; exact Except.noConfusion hp
        | ok names =>
          rw [hs] at hp
          cases hp
          simpa using sanLoop_le _ _ _ _ hs (by simp [X509_MAX_SUBJECT_ALT_NAMES])
      · exact Except.noConfusion hp

/-- Witness for C4: a subjectAltName carrying five DNS names errors out,
and one carrying a single DNS name parses with at most four entries. -/
theorem san_cap_witness :
    x509ParseSubjectAltName (mkTLV 48 fiveDnsNames) {} =
      .error .tooManySubjectAltNames ∧
    (exceptGetD (x509ParseSubjectAltName (mkTLV 48 (mkTLV 130 [97, 46, 97])) {})
        {}).subjectAltName.numGeneralNames ≤ X509_MAX_SUBJECT_ALT_NAMES :=
  ⟨san_cap.2.1 (mkTLV 48 fiveDnsNames) {} 2 25 5 (by rfl) (by rfl) (by rfl)
     (by decide),
   san_cap.2.2 (mkTLV 48 (mkTLV 130 [97, 46, 97])) {}
     (exceptGetD (x509ParseSubjectAltName (mkTLV 48 (mkTLV 130 [97, 46, 97])) {}) {})
     (by rfl)⟩

/-- Whatever `x509ParseTbsCertificate` parses, the recorded `tbsCertificate`
slice is the prefix of its input that the leading TLV occupies, header
included. -/
theorem x509ParseTbsCertificate_tbs (s : List Nat)
    (cert : X509CertificateInfo) (n : Nat)
    (hp : x509ParseTbsCertificate s = .ok (cert, n)) :
    ∃ t h l, readTLV s = .ok (t, h, l) ∧ cert.tbsCertificate = s.take (h + l) ∧
      cert.tbsCertificateLen = h + l ∧ n = h + l := by
  unfold x509ParseTbsCertificate at hp
  cases hr : readTLV s with
  | error e =>
    rw [hr] at hp
    simp only [error_bind] at hp
    exact Except.noConfusion hp
  | ok x =>
    obtain ⟨t, h, l⟩ := x
    rw [hr] at hp
    simp only [ok_bind] at hp
    try dsimp only at hp
    split at hp
    case isFalse => simp only [throw_eq] at hp; exact Except.noConfusion hp
    case isTrue =>
    cases h1 : x509ParseVersion ((s.drop h).take l) with
    | error e =>
      rw [h1] at hp; simp only [error_bind] at hp; exact Except.noConfusion hp
    | ok y1 =>
    obtain ⟨version, n1⟩ := y1
    rw [h1] at hp; simp only [ok_bind] at hp; try dsimp only at hp
    cases h2 : x509ParseSerialNumber (((s.drop h).take l).drop n1) with
    | error e =>
      rw [h2] at hp; simp only [error_bind] at hp; exact Except.noConfusion hp
    | ok y2 =>
    obtain ⟨serial, n2⟩ := y2
    rw [h2] at hp; simp only [ok_bind] at hp; try dsimp only at hp
    cases h3 : x509ParseSignature ((((s.drop h).take l).drop n1).drop n2) with
    | error e =>
      rw [h3] at hp; simp only [error_bind] at hp; exact Except.noConfusion hp
    | ok n3 =>
    rw [h3] at hp; simp only [ok_bind] at hp; try dsimp only at hp
    cases h4 : x509ParseName (((((s.drop h).take l).drop n1).drop n2).drop n3) with
    | error e =>
      rw [h4] at hp; simp only [error_bind] at hp; exact Except.noConfusion hp
    | ok y4 =>
    obtain ⟨issuer, n4⟩ := y4
    rw [h4] at hp; simp only [ok_bind] at hp; try dsimp only at hp
    cases h5 : x509ParseValidity
        ((((((s.drop h).take l).drop n1).drop n2).drop n3).drop n4) with
    | error e =>
      rw [h5] at hp; simp only [error_bind] at hp; exact Except.noConfusion hp
    | ok y5 =>
    obtain ⟨validity, n5⟩ := y5
    rw [h5] at hp; simp only [ok_bind] at hp; try dsimp only at hp
    cases h6 : x509ParseName
        (((((((s.drop h).take l).drop n1).drop n2).drop n3).drop n4).drop n5) with
    | error e =>
      rw [h6] at hp; simp only [error_bind] at hp; exact Except.noConfusion hp
    | ok y6 =>
    obtain ⟨subject, n6⟩ := y6
    rw [h6] at hp; simp only [ok_bind] at hp; try dsimp only at hp
    cases h7 : x509ParseSubjectPublicKeyInfo
        ((((((((s.drop h).take l).drop n1).drop n2).drop n3).drop n4).drop
          n5).drop n6) with
    | error e =>
      rw [h7] at hp; simp only [error_bind] at hp; exact Except.noConfusion hp
    | ok y7 =>
    obtain ⟨spki, n7⟩ := y7
    rw [h7] at hp; simp only [ok_bind] at hp; try dsimp only at hp
    cases h8 : x509ParseIssuerUniqueId
        (((((((((s.drop h).take l).drop n1).drop n2).drop n3).drop n4).drop
          n5).drop n6).drop n7) version with
    | error e =>
      rw [h8] at hp; simp only [error_bind] at hp; exact Except.noConfusion hp
    | ok n8 =>
    rw [h8] at hp; simp only [ok_bind] at hp; try dsimp only at hp
    cases h9 : x509ParseSubjectUniqueId
        ((((((((((s.drop h).take l).drop n1).drop n2).drop n3).drop n4).drop
          n5).drop n6).drop n7).drop n8) version with
    | error e =>
      rw [h9] at hp; simp only [error_bind] at hp; exact Except.noConfusion hp
    | ok n9 =>
    rw [h9] at hp; simp only [ok_bind] at hp; try dsimp only at hp
    cases h10 : x509ParseExtensions
        (((((((((((s.drop h).take l).drop n1).drop n2).drop n3).drop n4).drop
          n5).drop n6).drop n7).drop n8).drop n9) version with
    | error e =>
      rw [h10] at hp; simp only [error_bind] at hp; exact Except.noConfusion hp
    | ok y10 =>
    obtain ⟨exts, n10⟩ := y10
    rw [h10] at hp; simp only [ok_bind] at hp; try dsimp only at hp
    split at hp
    case isFalse => simp only [throw_eq] at hp; exact Except.noConfusion hp
    case isTrue =>
    simp only [pure_eq] at hp
    cases hp
    exact ⟨t, h, l, rfl, rfl, rfl, rfl⟩

/-- **C1.** For every DER byte stream accepted by `x509ParseCertificate`, the
resulting view's `tbsCertificate` slice (of `tbsCertificateLen` bytes) is
byte-identical to the contiguous region of the input occupied by the inner
tbsCertificate TLV — the first TLV inside the outer SEQUENCE — including that
TLV's own tag and length header.  ("Valid DER certificate" is expressed by
the success hypothesis: the parser itself is the arbiter of validity.) -/
theorem tbs_slice_identical (B : List Nat) (cert : X509CertificateInfo)
    (hp : x509ParseCertificate B = .ok cert) :
    ∃ t h l t2 h2 l2,
      readTLV B = .ok (t, h, l) ∧
      readTLV ((B.drop h).take l) = .ok (t2, h2, l2) ∧
      h2 + l2 ≤ l ∧
      cert.tbsCertificate = (B.drop h).take (h2 + l2) ∧
      cert.tbsCertificateLen = h2 + l2 := by
  unfold x509ParseCertificate at hp
  cases hr : readTLV B with
  | error e =>
    rw [hr] at hp
    simp only [error_bind] at hp
    exact Except.noConfusion hp
  | ok x =>
    obtain ⟨t, h, l⟩ := x
    rw [hr] at hp
    simp only [ok_bind] at hp
    try dsimp only at hp
    split at hp
    case isFalse => simp only [throw_eq] at hp; exact Except.noConfusion hp
    case isTrue =>
    cases ht : x509ParseTbsCertificate ((B.drop h).take l) with
    | error e =>
      rw [ht] at hp; simp only [error_bind] at hp; exact Except.noConfusion hp
    | ok y =>
    obtain ⟨cert1, n1⟩ := y
    obtain ⟨t2, h2, l2, hrt, htbs, hlenf, hn⟩ :=
      x509ParseTbsCertificate_tbs _ _ _ ht
    rw [ht] at hp; simp only [ok_bind] at hp; try dsimp only at hp
    cases ha : x509ParseSignatureAlgo (((B.drop h).take l).drop n1) with
    | error e =>
      rw [ha] at hp; simp only [error_bind] at hp; exact Except.noConfusion hp
    | ok z =>
    obtain ⟨algoOid, n2⟩ := z
    rw [ha] at hp; simp only [ok_bind] at hp; try dsimp only at hp
    cases hv : x509ParseSignatureValue ((((B.drop h).take l).drop n1).drop n2) with
    | error e =>
      rw [hv] at hp; simp only [error_bind] at hp; exact Except.noConfusion hp
    | ok w =>
    obtain ⟨sigVal, n3⟩ := w
    rw [hv] at hp; simp only [ok_bind] at hp; try dsimp only at hp
    split at hp
    case isFalse => simp only [throw_eq] at hp; exact Except.noConfusion hp
    case isTrue =>
    simp only [pure_eq] at hp
    cases hp
    have hb := readTLV_bounds _ _ _ _ hrt
    have hlen : ((B.drop h).take l).length ≤ l := by
      rw [List.length_take]
      exact min_le_left _ _
    refine ⟨t, h, l, t2, h2, l2, rfl, hrt, by omega, ?_, ?_⟩
    · show cert1.tbsCertificate = (B.drop h).take (h2 + l2)
      rw [htbs, List.take_take, min_eq_left (by omega)]
    · exact hlenf

/-- Witness for C1: the minimal v1 demonstration certificate. -/
theorem tbs_slice_identical_witness :
    x509ParseCertificate certV1 = .ok (exceptGetD (x509ParseCertificate certV1) {}) ∧
    ∃ t h l t2 h2 l2,
      readTLV certV1 = .ok (t, h, l) ∧
      readTLV ((certV1.drop h).take l) = .ok (t2, h2, l2) ∧
      h2 + l2 ≤ l ∧
      (exceptGetD (x509ParseCertificate certV1) {}).tbsCertificate =
        (certV1.drop h).take (h2 + l2) ∧
      (exceptGetD (x509ParseCertificate certV1) {}).tbsCertificateLen = h2 + l2 :=
  ⟨by rfl, tbs_slice_identical certV1 (exceptGetD (x509ParseCertificate certV1) {})
    (by rfl)⟩

end X509
